import Mathlib

/-!
# Verification development for the NPTEL certificate verification service

Shallow embedding of the verification pipeline of `app/services/verifier.py`,
`app/services/utils/extractor.py` and their callers.

Modelling conventions:
* Python `str` is Lean `String`; `str.strip`, `str.lower`, `str.splitlines`
  are embedded below (`pyStrip`, `pyLower`, `pySplitlines`) over the ASCII /
  Latin-1 whitespace and line-break repertoire, which covers every string the
  pipeline manipulates.
* File I/O is abstracted: a PDF is represented by its first-page text (what
  `fitz` `page.get_text()` returns), so `extract_student_info_from_pdf` takes
  the text rather than a path.
* The database session is explicit state (`DBState`), external collaborators
  not present in the source tree (`extract_link`, `download_verification_pdf`)
  are oracle inputs in an `Env` record, and raised `HTTPException`s appear in
  an explicit `Outcome` value.
-/

namespace NptelApi

/-- Characters Python's `str.strip()` removes (ASCII/Latin-1 part of
`str.isspace()`): space, TAB, LF, VT, FF, CR, FS, GS, RS, US, NEL, NBSP. -/
def isPySpace (c : Char) : Bool :=
  c = ' ' || c = '\t' || c = '\n' || c = (Char.ofNat 0x0b) || c = (Char.ofNat 0x0c) ||
  c = '\r' || c = (Char.ofNat 0x1c) || c = (Char.ofNat 0x1d) || c = (Char.ofNat 0x1e) ||
  c = (Char.ofNat 0x1f) || c = (Char.ofNat 0x85) || c = (Char.ofNat 0xa0)

/-- Python `str.strip()` on a character list: drop whitespace on both ends. -/
def pyStripList (l : List Char) : List Char :=
  ((l.dropWhile isPySpace).reverse.dropWhile isPySpace).reverse

/-- Python `str.strip()`. -/
def pyStrip (s : String) : String := ⟨pyStripList s.data⟩

/-- Python `str.lower()` (ASCII repertoire, which is all the pipeline uses). -/
def pyLower (s : String) : String := ⟨s.data.map Char.toLower⟩

/-- The composition `.lower().strip()` the comparator applies to the
course-name and student-name checks (verifier.py lines 146-154). -/
def pyNorm (s : String) : String := pyStrip (pyLower s)

/-- Line-break characters recognised by Python `str.splitlines()`
(LF, CR, VT, FF, FS, GS, RS, NEL, LINE SEPARATOR, PARAGRAPH SEPARATOR). -/
def isPyLineBreak (c : Char) : Bool :=
  c = '\n' || c = '\r' || c = (Char.ofNat 0x0b) || c = (Char.ofNat 0x0c) ||
  c = (Char.ofNat 0x1c) || c = (Char.ofNat 0x1d) || c = (Char.ofNat 0x1e) ||
  c = (Char.ofNat 0x85) || c = (Char.ofNat 0x2028) || c = (Char.ofNat 0x2029)

/-- Worker for `pySplitlines`: `acc` is the current line, reversed. -/
def pySplitlinesAux : List Char → List Char → List String
  | [], acc => if acc.isEmpty then [] else [⟨acc.reverse⟩]
  | '\r' :: '\n' :: rest, acc => (⟨acc.reverse⟩ : String) :: pySplitlinesAux rest []
  | c :: rest, acc =>
      if isPyLineBreak c then (⟨acc.reverse⟩ : String) :: pySplitlinesAux rest []
      else pySplitlinesAux rest (c :: acc)

/-- Python `str.splitlines()`: split at line breaks (treating CRLF as one
break), with no trailing empty line for a trailing break. -/
def pySplitlines (s : String) : List String := pySplitlinesAux s.data []

/-- The four fields `extract_student_info_from_pdf` returns
(extractor.py lines 32-37). -/
structure StudentInfo where
  course_name : String
  student_name : String
  total_marks : String
  roll_no : String
deriving DecidableEq, Repr

/-- `extract_student_info_from_pdf` (extractor.py lines 13-37) as a function of
the first-page text: `none` models the all-`None` tuple returned when the text
is not exactly 12 lines; otherwise fields are the stripped lines at the fixed
0-based offsets 5, 6, 9, 11 (assignment marks, line 7, and exam marks, line 8,
are extracted in the source but not returned). -/
def extract_student_info_from_pdf (text : String) : Option StudentInfo :=
  let lines := pySplitlines text
  if lines.length ≠ 12 then
    none
  else
    some {
      course_name := pyStrip (lines.getD 5 "")
      student_name := pyStrip (lines.getD 6 "")
      total_marks := pyStrip (lines.getD 9 "")
      roll_no := pyStrip (lines.getD 11 "") }

/-- Method `Verifier.verify_file` (verifier.py lines 106-168), as a function of the
first-page texts of the uploaded file and of the downloaded verification file
plus the on-record subject and student names.  The checks run in source order:
uploaded side all-`None`, verification side all-`None`, course name (two-way,
`.lower().strip()` both sides), student name (likewise), total marks (exact),
roll number (exact); the returned string is the failure message of the first
failing check, or "Verification successful". -/
def verify_file (uploadedText verificationText subject_name student_name : String) :
    Bool × String × Option String × Option String :=
  match extract_student_info_from_pdf uploadedText,
        extract_student_info_from_pdf verificationText with
  | none, _ => (false, "Invalid PDF uploaded. Data missing.", none, none)
  | some _, none => (false, "Invalid details in the verification file", none, none)
  | some u, some v =>
    if pyNorm u.course_name ≠ pyNorm v.course_name ∨
       pyNorm u.course_name ≠ pyNorm subject_name then
      (false, "Course name mismatch", none, none)
    else if pyNorm u.student_name ≠ pyNorm v.student_name ∨
            pyNorm u.student_name ≠ pyNorm student_name then
      (false, "Student name mismatch", none, none)
    else if u.total_marks ≠ v.total_marks then
      (false, "Total marks mismatch", none, none)
    else if u.roll_no ≠ v.roll_no then
      (false, "Roll number mismatch", none, none)
    else
      (true, "Verification successful", some v.roll_no, some v.total_marks)

/-- The `RequestStatus` enumeration of `app/models`. -/
inductive RequestStatus where
  | pending | processing | completed | rejected | error
deriving DecidableEq, Repr

/-- The fields of the `Request` row that `start_verification` reads or writes.
`due_date` is a UTC timestamp (the source's naive datetime after
`replace(tzinfo=timezone.utc)`); `subject_name` and `student_name` are the
on-record `db_request.subject.name` and `db_request.student.name`. -/
structure Request where
  status : RequestStatus
  due_date : Option Int
  subject_name : String
  student_name : String
deriving DecidableEq, Repr

/-- The fields of the `Certificate` row that the verifier reads or writes. -/
structure Certificate where
  file_url : String
  verification_file_url : Option String
  verified : Bool
  remark : Option String
deriving DecidableEq, Repr

/-- The slice of database state visible to one `start_verification` call:
the result of the `(request_id, student_id)`-scoped `Request` query (`none`
when the row is absent or owned by another student), and the at-most-one
`Certificate` row for the request (the relationship is 1:1). -/
structure DBState where
  request : Option Request
  certificate : Option Certificate
deriving DecidableEq, Repr

/-- Oracle inputs of one `start_verification` call: the clock, the uploaded
file, and the results of the two external collaborators whose code is not in
the source tree.

`qr_link` — Modelled from the spec: `extract_link`
(`app/services/utils/qr_extraction`, the LinkResolver) "scans the given page's
embedded imagery for a machine-readable code; decodes it to a URL. Returns
absent (not an error) when no code is found or it is unreadable".

`download_success`, `download_url`, `download_output` — Modelled from the
spec: `download_verification_pdf` (`app/services/utils/downloader`, the
Retriever) "performs the network fetch with a bounded timeout; ... Never
raises for ordinary network/HTTP failures — always returns a RetrievalResult
with success=false and a diagnostic message"; the source unpacks its result as
`success, pdf_url, output`.

`commit1_fails` — whether the step-3 `self.db.commit()` (the only commit the
source wraps in `try`/`except`, verifier.py lines 61-68) raises; the later
commits are modelled as succeeding. -/
structure Env where
  now : Int
  uploaded_file_path : String
  uploadedText : String
  qr_link : Option String
  download_success : Bool
  download_url : String
  download_output : String
  downloadedText : String
  commit1_fails : Bool
deriving DecidableEq, Repr

/-- How one `start_verification` call ends: normal return, a raised
`HTTPException(status_code, detail)`, or re-raising the commit exception
(`raise e`, verifier.py line 68). -/
inductive Outcome where
  | ok
  | httpError (code : Nat) (detail : String)
  | reraised
deriving DecidableEq, Repr

/-- The due-date guard (verifier.py lines 35-38):
`datetime.now(timezone.utc) > offset_aware_due_date`, false when no due date
is set. -/
def past_due (now : Int) (due : Option Int) : Bool :=
  match due with
  | none => false
  | some d => decide (d < now)

/-- Python truthiness of `if not verification_link` (verifier.py line 71):
the link is missing when `extract_link` returned `None` or an empty string. -/
def link_missing : Option String → Bool
  | none => true
  | some s => s.isEmpty

/-- The step-3 upsert (verifier.py lines 48-59): reuse the existing
`Certificate` row if one exists, otherwise build a fresh one carrying the
uploaded-file location and `verified=False`.  Note the source does not write
`file_url` or `verified` on a reused row. -/
def upsert_certificate (env : Env) (db : DBState) : Certificate :=
  match db.certificate with
  | some c => c
  | none =>
      { file_url := env.uploaded_file_path
        verification_file_url := none
        verified := false
        remark := none }

/-- The database state committed at the end of step 3 (verifier.py lines
44-64): request status `processing`, certificate upserted. -/
def step3State (env : Env) (req : Request) (db : DBState) : DBState :=
  { db with
    request := some { req with status := .processing }
    certificate := some (upsert_certificate env db) }

/-- Method `Verifier.update_status_to_rejected` (verifier.py lines 171-183): set
request status `rejected`, certificate `verified=False` with the remark,
commit, then raise `HTTPException(400, remark)`. -/
def update_status_to_rejected (db : DBState) (req : Request) (cert : Certificate)
    (remark : String) : DBState × Outcome :=
  ({ db with
     request := some { req with status := .rejected }
     certificate := some { cert with verified := false, remark := some remark } },
   .httpError 400 remark)

/-- Method `Verifier.update_status_to_error` (verifier.py lines 185-195): set request
status `error`, certificate `verified=False` with the remark, commit; unlike
the rejected path it raises nothing. -/
def update_status_to_error (db : DBState) (req : Request) (cert : Certificate)
    (remark : String) : DBState :=
  { db with
    request := some { req with status := .error }
    certificate := some { cert with verified := false, remark := some remark } }

/-- Method `Verifier.start_verification` (verifier.py lines 22-104).  Returns the
final committed database state and the call's outcome.

On the step-3 commit failure the source rolls the session back before
`update_status_to_error`: the rollback discards the in-session mutations, and
a `Certificate` row added inside the failed transaction is expunged from the
session, so the error remark is persisted only on a pre-existing certificate
row; the request row itself is persistent and its `error` status is committed.
-/
def start_verification (env : Env) (db : DBState) : DBState × Outcome :=
  match db.request with
  | none => (db, .httpError 404 "Request not found or does not belong to the current student")
  | some req =>
    if past_due env.now req.due_date then
      (db, .httpError 403 "Request is past the due date")
    else
      let cert := upsert_certificate env db
      if env.commit1_fails then
        ({ db with
           request := some { req with status := RequestStatus.error }
           certificate := db.certificate.map (fun c =>
             { c with verified := false,
                      remark := some "An internal server error occurred" }) },
         .reraised)
      else
        let db1 := step3State env req db
        let req1 : Request := { req with status := .processing }
        if link_missing env.qr_link then
          update_status_to_rejected db1 req1 cert "Verification link / QR not found"
        else if !env.download_success then
          (update_status_to_error db1 req1 cert "Could not download the verification pdf", .ok)
        else
          let cert1 := { cert with verification_file_url := some env.download_url }
          let db2 := { db1 with certificate := some cert1 }
          let r := verify_file env.uploadedText env.downloadedText
                     req.subject_name req.student_name
          if !r.1 then
            update_status_to_rejected db2 req1 cert1 r.2.1
          else
            ({ db2 with
               request := some { req with status := .completed }
               certificate := some { cert1 with verified := true,
                                                remark := some "Verification successful" } },
             .ok)

/-! ## The Comparator order as the spec states it -/

/-- Labels for the Comparator's ordered checks (spec section 4.4). -/
inductive CheckFailure where
  | invalidUploaded | invalidOfficial | courseName | studentName | totalMarks | rollNumber
deriving DecidableEq, Repr

/-- The failure message `verify_file` reports for each failing check. -/
def reasonString : CheckFailure → String
  | .invalidUploaded => "Invalid PDF uploaded. Data missing."
  | .invalidOfficial => "Invalid details in the verification file"
  | .courseName => "Course name mismatch"
  | .studentName => "Student name mismatch"
  | .totalMarks => "Total marks mismatch"
  | .rollNumber => "Roll number mismatch"

/-- The first failing check in the order the spec prescribes (section 4.4),
written from the spec's words for comparison with `verify_file`: uploaded-side
invalid, official-side invalid, course name (two-way, case-insensitive,
trimmed: "either inequality fails"), student name (likewise), total marks
(exact), roll number (exact); `none` when every check passes. -/
def firstFailure (uploaded official : Option StudentInfo)
    (subject student : String) : Option CheckFailure :=
  match uploaded with
  | none => some .invalidUploaded
  | some u =>
    match official with
    | none => some .invalidOfficial
    | some v =>
      if pyNorm u.course_name ≠ pyNorm v.course_name ∨
         pyNorm u.course_name ≠ pyNorm subject then some .courseName
      else if pyNorm u.student_name ≠ pyNorm v.student_name ∨
              pyNorm u.student_name ≠ pyNorm student then some .studentName
      else if u.total_marks ≠ v.total_marks then some .totalMarks
      else if u.roll_no ≠ v.roll_no then some .rollNumber
      else none

/-! ## Concrete sample data used by witnesses and counterexamples -/

/-- A 12-line first-page text in the expected fixed layout. -/
def sampleText : String :=
  "l1\nl2\nl3\nl4\nl5\nAlgorithms\nJane Doe\n10\n20\n88\nl11\nR101"

/-- The fields extracted from `sampleText`. -/
def sampleInfo : StudentInfo :=
  { course_name := "Algorithms", student_name := "Jane Doe"
    total_marks := "88", roll_no := "R101" }

/-- An on-record request matching `sampleText`, with no due date. -/
def sampleReq : Request :=
  { status := .pending, due_date := none
    subject_name := "Algorithms", student_name := "Jane Doe" }

/-- An environment in which every pipeline step succeeds and both documents
carry `sampleText`. -/
def sampleEnv : Env :=
  { now := 0, uploaded_file_path := "certificates/new.pdf"
    uploadedText := sampleText
    qr_link := some "https://x", download_success := true
    download_url := "https://x/y.pdf", download_output := ""
    downloadedText := sampleText, commit1_fails := false }

/-- Database state holding `sampleReq` and no certificate row yet. -/
def sampleDB : DBState := { request := some sampleReq, certificate := none }

/-- Database state in which the request lookup finds nothing. -/
def dbNone : DBState := { request := none, certificate := none }

/-- Like `sampleEnv` but the LinkResolver finds no QR code. -/
def envNoLink : Env := { sampleEnv with qr_link := none }

/-- Like `sampleEnv` but the Retriever reports failure. -/
def envDownloadFail : Env := { sampleEnv with download_success := false }

/-- A pre-existing certificate row from an earlier upload. -/
def oldCert : Certificate :=
  { file_url := "certificates/old.pdf", verification_file_url := none
    verified := false, remark := some "Roll number mismatch" }

/-- Database state with `sampleReq` and the pre-existing `oldCert` row. -/
def dbWithCert : DBState := { request := some sampleReq, certificate := some oldCert }

/-- A 12-line first-page text whose course-name line has surrounding blanks. -/
def paddedText : String :=
  "l1\nl2\nl3\nl4\nl5\n  Algorithms  \nJane Doe\n10\n20\n88\nl11\nR101"

/-! ## Claims -/

/-- C3: for every document, field extraction returns Invalid if and only if
the first-page text does not split into exactly 12 lines; on exactly 12 lines
it returns the fields taken from the fixed offsets: course name from line 6,
student name from line 7, total marks from line 10, roll number from line 12
(1-based). -/
theorem extraction_twelve_line_layout (text : String) :
    (extract_student_info_from_pdf text = none ↔ (pySplitlines text).length ≠ 12) ∧
    ((pySplitlines text).length = 12 →
      extract_student_info_from_pdf text = some
        { course_name := pyStrip ((pySplitlines text).getD 5 "")
          student_name := pyStrip ((pySplitlines text).getD 6 "")
          total_marks := pyStrip ((pySplitlines text).getD 9 "")
          roll_no := pyStrip ((pySplitlines text).getD 11 "") }) := by
  unfold extract_student_info_from_pdf
  by_cases h : (pySplitlines text).length = 12 <;> simp [h]

/-- Witness for C3 at `sampleText` (12 lines, fields as recorded in
`sampleInfo`). -/
theorem extraction_twelve_line_layout_witness :
    extract_student_info_from_pdf sampleText = some sampleInfo := by
  exact ((extraction_twelve_line_layout sampleText).2 (by decide)).trans (by decide)

/-- C2: for every pair of extracted field sets and on-record subject/student
names, the comparator applies its checks in the strict order: uploaded-side
invalid, official-side invalid, course name (two-way, case-insensitive,
trimmed), student name (two-way, case-insensitive, trimmed), total marks
(exact), roll number (exact); it returns the reason of the first failing
check even when later checks would also fail, and returns success only when
all checks pass. -/
theorem comparator_first_failure (up vt subj stud : String) :
    ((verify_file up vt subj stud).1 = true ↔
      firstFailure (extract_student_info_from_pdf up)
        (extract_student_info_from_pdf vt) subj stud = none) ∧
    (∀ f, firstFailure (extract_student_info_from_pdf up)
        (extract_student_info_from_pdf vt) subj stud = some f →
      (verify_file up vt subj stud).1 = false ∧
      (verify_file up vt subj stud).2.1 = reasonString f) := by
  unfold verify_file firstFailure
  cases extract_student_info_from_pdf up with
  | none => simp [reasonString]
  | some u =>
    cases extract_student_info_from_pdf vt with
    | none => simp [reasonString]
    | some v =>
      dsimp only
      split_ifs <;> simp [reasonString]

/-- Witness for C2: at `sampleText` versus a copy whose roll-number line
differs, the first (and only) failing check is the roll number. -/
theorem comparator_first_failure_witness :
    (verify_file sampleText
        "l1\nl2\nl3\nl4\nl5\nAlgorithms\nJane Doe\n10\n20\n88\nl11\nR102"
        "Algorithms" "Jane Doe").1 = false ∧
    (verify_file sampleText
        "l1\nl2\nl3\nl4\nl5\nAlgorithms\nJane Doe\n10\n20\n88\nl11\nR102"
        "Algorithms" "Jane Doe").2.1 = reasonString .rollNumber := by
  exact (comparator_first_failure sampleText
    "l1\nl2\nl3\nl4\nl5\nAlgorithms\nJane Doe\n10\n20\n88\nl11\nR102"
    "Algorithms" "Jane Doe").2 .rollNumber (by decide)

/-- The step-3 upsert reads only the uploaded-file location from the
environment. -/
theorem upsert_certificate_congr (env env' : Env) (db : DBState)
    (h : env'.uploaded_file_path = env.uploaded_file_path) :
    upsert_certificate env' db = upsert_certificate env db := by
  unfold upsert_certificate
  cases db.certificate <;> simp [h]

/-- C1 counterexample: a run in which the uploaded and official fields are
identical and match the on-record names does end `completed` with
`verified=true`, but the stored remark is "Verification successful" (capital
V, verifier.py line 103), not "verification successful" as the claim states.
-/
theorem completed_remark_counterexample :
    (start_verification sampleEnv sampleDB).1.request.map Request.status
      = some RequestStatus.completed ∧
    (start_verification sampleEnv sampleDB).1.certificate.map Certificate.verified
      = some true ∧
    (start_verification sampleEnv sampleDB).1.certificate.map Certificate.remark
      ≠ some (some "verification successful") := by
  refine ⟨by decide, by decide, by decide⟩

/-- C1 (amended): for every uploaded document whose extracted fields equal
the retrieved official copy's fields and match the on-record subject and
student names — in a call that passes the request and due-date guards, whose
step-3 commit succeeds, whose verification link resolves and whose retrieval
succeeds — `start_verification` terminates normally with the request's status
`completed`, the certificate's verified flag `true`, and the certificate's
remark "Verification successful" (with a capital V, as the source writes it).
-/
theorem start_verification_success (env : Env) (db : DBState) (req : Request)
    (u : StudentInfo)
    (hreq : db.request = some req)
    (hdue : past_due env.now req.due_date = false)
    (hcommit : env.commit1_fails = false)
    (hlink : link_missing env.qr_link = false)
    (hdl : env.download_success = true)
    (hup : extract_student_info_from_pdf env.uploadedText = some u)
    (hvt : extract_student_info_from_pdf env.downloadedText = some u)
    (hsubj : pyNorm u.course_name = pyNorm req.subject_name)
    (hstud : pyNorm u.student_name = pyNorm req.student_name) :
    (start_verification env db).2 = Outcome.ok ∧
    (start_verification env db).1.request = some { req with status := .completed } ∧
    ∃ c, (start_verification env db).1.certificate = some c ∧
      c.verified = true ∧ c.remark = some "Verification successful" := by
  have hv : verify_file env.uploadedText env.downloadedText
      req.subject_name req.student_name
      = (true, "Verification successful", some u.roll_no, some u.total_marks) := by
    unfold verify_file
    rw [hup, hvt]
    simp [hsubj, hstud]
  obtain ⟨oreq, ocert⟩ := db
  simp only [DBState.request] at hreq
  subst hreq
  simp [start_verification, hdue, hcommit, hlink, hdl, hv, step3State]

/-- Witness for C1 (amended) at the sample run. -/
theorem start_verification_success_witness :
    (start_verification sampleEnv sampleDB).2 = Outcome.ok ∧
    (start_verification sampleEnv sampleDB).1.request
      = some { sampleReq with status := .completed } ∧
    ∃ c, (start_verification sampleEnv sampleDB).1.certificate = some c ∧
      c.verified = true ∧ c.remark = some "Verification successful" :=
  start_verification_success sampleEnv sampleDB sampleReq sampleInfo
    (by decide) (by decide) (by decide) (by decide) (by decide)
    (by decide) (by decide) (by decide) (by decide)

/-- C4: when `start_verification` fails with NotFound (request absent or
owned by a different student) or Forbidden (due date set and the current UTC
time strictly past it), no state is mutated: the returned database state
equals the state before the call, and the outcome is the corresponding raised
HTTP error. -/
theorem guards_no_mutation (env : Env) (db : DBState)
    (h : db.request = none ∨
         ∃ req, db.request = some req ∧ past_due env.now req.due_date = true) :
    (start_verification env db).1 = db ∧
    (db.request = none →
      (start_verification env db).2
        = Outcome.httpError 404 "Request not found or does not belong to the current student") ∧
    (∀ req, db.request = some req →
      (start_verification env db).2
        = Outcome.httpError 403 "Request is past the due date") := by
  obtain ⟨oreq, ocert⟩ := db
  rcases h with h | ⟨req, hreq, hdue⟩
  · simp only [DBState.request] at h
    subst h
    simp [start_verification]
  · simp only [DBState.request] at hreq
    subst hreq
    simp [start_verification, hdue]

/-- Witness for C4: at an absent request, the state comes back unchanged and
the outcome is the 404 error. -/
theorem guards_no_mutation_witness :
    (start_verification sampleEnv dbNone).1 = dbNone ∧
    (start_verification sampleEnv dbNone).2
      = Outcome.httpError 404 "Request not found or does not belong to the current student" := by
  have h := guards_no_mutation sampleEnv dbNone (Or.inl (by decide))
  exact ⟨h.1, h.2.1 (by decide)⟩

/-- C5 counterexample: with no decodable link the run ends `rejected`, but
the stored remark is "Verification link / QR not found" (verifier.py line
72), not "verification link not found" as the claim states. -/
theorem link_missing_remark_counterexample :
    (start_verification envNoLink sampleDB).1.request.map Request.status
      = some RequestStatus.rejected ∧
    (start_verification envNoLink sampleDB).1.certificate.map Certificate.remark
      ≠ some (some "verification link not found") := by
  refine ⟨by decide, by decide⟩

/-- C5 (amended): for every uploaded document in which no verification link
can be resolved from the first page (the LinkResolver returns absent or an
empty string), a call that passes the guards and whose step-3 commit succeeds
transitions the request to `rejected` with the remark
"Verification link / QR not found" (the source's wording), raises HTTP 400,
and performs no network retrieval: the result is independent of the
Retriever oracle. -/
theorem link_missing_rejected (env : Env) (db : DBState) (req : Request)
    (hreq : db.request = some req)
    (hdue : past_due env.now req.due_date = false)
    (hcommit : env.commit1_fails = false)
    (hlink : link_missing env.qr_link = true) :
    (start_verification env db).1.request = some { req with status := .rejected } ∧
    (∃ c, (start_verification env db).1.certificate = some c ∧
      c.verified = false ∧ c.remark = some "Verification link / QR not found") ∧
    (start_verification env db).2
      = Outcome.httpError 400 "Verification link / QR not found" ∧
    (∀ ds du dout dt,
      start_verification
        { env with download_success := ds, download_url := du,
                   download_output := dout, downloadedText := dt } db
        = start_verification env db) := by
  obtain ⟨oreq, ocert⟩ := db
  simp only [DBState.request] at hreq
  subst hreq
  refine ⟨?_, ?_, ?_, ?_⟩
  · simp [start_verification, hdue, hcommit, hlink,
          update_status_to_rejected, step3State]
  · simp [start_verification, hdue, hcommit, hlink,
          update_status_to_rejected, step3State]
  · simp [start_verification, hdue, hcommit, hlink,
          update_status_to_rejected, step3State]
  · intro ds du dout dt
    have hco : upsert_certificate
        { env with download_success := ds, download_url := du,
                   download_output := dout, downloadedText := dt }
        { request := some req, certificate := ocert }
        = upsert_certificate env { request := some req, certificate := ocert } :=
      upsert_certificate_congr _ _ _ rfl
    rw [hcommit] at hco
    simp [start_verification, hdue, hcommit, hlink,
          update_status_to_rejected, step3State, hco]

/-- Witness for C5 (amended) at the sample run without a link. -/
theorem link_missing_rejected_witness :
    (start_verification envNoLink sampleDB).1.request
      = some { sampleReq with status := .rejected } ∧
    (∃ c, (start_verification envNoLink sampleDB).1.certificate = some c ∧
      c.verified = false ∧ c.remark = some "Verification link / QR not found") ∧
    (start_verification envNoLink sampleDB).2
      = Outcome.httpError 400 "Verification link / QR not found" ∧
    (∀ ds du dout dt,
      start_verification
        { envNoLink with download_success := ds, download_url := du,
                         download_output := dout, downloadedText := dt } sampleDB
        = start_verification envNoLink sampleDB) :=
  link_missing_rejected envNoLink sampleDB sampleReq
    (by decide) (by decide) (by decide) (by decide)

/-- C6: when the retrieval of the authoritative copy fails, or the step-3
persistence commit fails, `start_verification` drives the request to the
terminal status `error` — never to `rejected` and never leaving it
`processing` — and any certificate row on record carries the corresponding
diagnostic remark with `verified=false`. -/
theorem failure_paths_error_status (env : Env) (db : DBState) (req : Request)
    (hreq : db.request = some req)
    (hdue : past_due env.now req.due_date = false)
    (hfail : env.commit1_fails = true ∨
      (env.commit1_fails = false ∧ link_missing env.qr_link = false ∧
       env.download_success = false)) :
    (start_verification env db).1.request.map Request.status
      = some RequestStatus.error ∧
    (∀ c, (start_verification env db).1.certificate = some c →
      c.verified = false ∧
      (c.remark = some "An internal server error occurred" ∨
       c.remark = some "Could not download the verification pdf")) := by
  obtain ⟨oreq, ocert⟩ := db
  simp only [DBState.request] at hreq
  subst hreq
  rcases hfail with hc | ⟨hc, hl, hd⟩
  · cases ocert <;>
      simp [start_verification, hdue, hc, update_status_to_error, step3State]
  · simp [start_verification, hdue, hc, hl, hd,
          update_status_to_error, step3State]

/-- Witness for C6: a failed download on the sample run ends with request
status `error`, `verified=false` and the download diagnostic remark. -/
theorem failure_paths_error_status_witness :
    (start_verification envDownloadFail sampleDB).1.request.map Request.status
      = some RequestStatus.error ∧
    ∀ c, (start_verification envDownloadFail sampleDB).1.certificate = some c →
      c.verified = false ∧
      (c.remark = some "An internal server error occurred" ∨
       c.remark = some "Could not download the verification pdf") :=
  failure_paths_error_status envDownloadFail sampleDB sampleReq
    (by decide) (by decide) (Or.inr ⟨by decide, by decide, by decide⟩)

/-- C7 counterexample: with a pre-existing certificate row whose stored file
location is "certificates/old.pdf", a new upload located at
"certificates/new.pdf" leaves the reused row's `file_url` at the old
location, both right after step 3 and in the final state of a completed run:
the code never writes `file_url` on a reused row (verifier.py lines 48-59).
-/
theorem upsert_reuse_counterexample :
    sampleEnv.uploaded_file_path = "certificates/new.pdf" ∧
    (step3State sampleEnv sampleReq dbWithCert).certificate.map Certificate.file_url
      = some "certificates/old.pdf" ∧
    (step3State sampleEnv sampleReq dbWithCert).certificate.map Certificate.file_url
      ≠ some sampleEnv.uploaded_file_path ∧
    (start_verification sampleEnv dbWithCert).1.certificate.map Certificate.file_url
      = some "certificates/old.pdf" := by
  refine ⟨by decide, by decide, by decide, by decide⟩

/-- C7 (amended): for every upload that passes the NotFound and Forbidden
guards, after step 3 exactly one certificate row exists for the request — a
second upload reuses (updates in place) the existing row rather than creating
a duplicate.  A freshly created row carries the uploaded-file location and
`verified=false`; a reused row is left exactly as it was, retaining the
previous upload's file location and verified flag. -/
theorem upsert_single_record (env : Env) (db : DBState) (req : Request)
    (hreq : db.request = some req)
    (hdue : past_due env.now req.due_date = false) :
    (step3State env req db).certificate.isSome = true ∧
    (db.certificate = none → (step3State env req db).certificate =
      some { file_url := env.uploaded_file_path, verification_file_url := none,
             verified := false, remark := none }) ∧
    (∀ c, db.certificate = some c → (step3State env req db).certificate = some c) := by
  obtain ⟨oreq, ocert⟩ := db
  cases ocert <;> simp [step3State, upsert_certificate]

/-- Witness for C7 (amended): on a first upload (no pre-existing row) the
row after step 3 is freshly created with the uploaded location and
`verified=false`. -/
theorem upsert_single_record_witness :
    (step3State sampleEnv sampleReq sampleDB).certificate =
      some { file_url := sampleEnv.uploaded_file_path, verification_file_url := none,
             verified := false, remark := none } :=
  (upsert_single_record sampleEnv sampleDB sampleReq (by decide) (by decide)).2.1
    (by decide)

/-- The data-model invariant of spec section 3, on the lookup-visible state:
the certificate's verified flag is true only when the owning request's status
is `completed`. -/
def VerifiedInv (db : DBState) : Prop :=
  ∀ c req, db.certificate = some c → db.request = some req →
    c.verified = true → req.status = RequestStatus.completed

/-- C8: the invariant "verified=true only when the owning request's status is
completed" is preserved by every operation of the orchestrator: by
`start_verification` from entry to exit, and unconditionally by
`update_status_to_rejected` and `update_status_to_error`, both of which set
`verified=false` together with their non-completed status. -/
theorem verified_invariant_preserved (env : Env) (db : DBState)
    (h : VerifiedInv db) :
    VerifiedInv (start_verification env db).1 ∧
    (∀ db' req c r, VerifiedInv (update_status_to_rejected db' req c r).1) ∧
    (∀ db' req c r, VerifiedInv (update_status_to_error db' req c r)) := by
  refine ⟨?_, ?_, ?_⟩
  · obtain ⟨oreq, ocert⟩ := db
    cases oreq with
    | none => simpa [start_verification] using h
    | some req =>
      by_cases hdue : past_due env.now req.due_date
      · simpa [start_verification, hdue] using h
      · by_cases hc : env.commit1_fails
        · cases ocert <;>
            simp [start_verification, hdue, hc, VerifiedInv]
        · by_cases hl : link_missing env.qr_link
          · simp [start_verification, hdue, hc, hl, VerifiedInv,
                  update_status_to_rejected, step3State]
          · by_cases hd : env.download_success
            · by_cases hv : (verify_file env.uploadedText env.downloadedText
                  req.subject_name req.student_name).1
              · simp [start_verification, hdue, hc, hl, hd, hv, VerifiedInv,
                      step3State]
              · simp [start_verification, hdue, hc, hl, hd, hv, VerifiedInv,
                      update_status_to_rejected, step3State]
            · simp [start_verification, hdue, hc, hl, hd, VerifiedInv,
                    update_status_to_error, step3State]
  · intro db' req c r
    simp [VerifiedInv, update_status_to_rejected]
  · intro db' req c r
    simp [VerifiedInv, update_status_to_error]

/-- Witness for C8: the invariant holds of the sample state (no certificate
row yet) and is preserved across the sample run. -/
theorem verified_invariant_preserved_witness :
    VerifiedInv (start_verification sampleEnv sampleDB).1 :=
  (verified_invariant_preserved sampleEnv sampleDB
    (by intro c req hc hr; simp [sampleDB] at hc)).1

/-- C9 counterexample: the extractor does not return the raw line contents —
it strips each field at extraction time (extractor.py lines 25-30): from a
12-line text whose course-name line is "  Algorithms  " it returns
"Algorithms". -/
theorem extraction_strips_counterexample :
    (pySplitlines paddedText).getD 5 "" = "  Algorithms  " ∧
    (extract_student_info_from_pdf paddedText).map StudentInfo.course_name
      = some "Algorithms" ∧
    (extract_student_info_from_pdf paddedText).map StudentInfo.course_name
      ≠ some ((pySplitlines paddedText).getD 5 "") := by
  refine ⟨by decide, by decide, by decide⟩

/-- C9 (amended): the extractor already trims (but does not case-normalize)
each field at extraction time; the comparator then applies lowercasing and
trimming, and only for the course-name and student-name checks — total marks
and roll number are compared by exact equality of the extracted values. -/
theorem extraction_trims_comparison_normalizes (text up vt subj stud : String)
    (u v : StudentInfo)
    (h12 : (pySplitlines text).length = 12)
    (hu : extract_student_info_from_pdf up = some u)
    (hv : extract_student_info_from_pdf vt = some v) :
    extract_student_info_from_pdf text = some
      { course_name := pyStrip ((pySplitlines text).getD 5 "")
        student_name := pyStrip ((pySplitlines text).getD 6 "")
        total_marks := pyStrip ((pySplitlines text).getD 9 "")
        roll_no := pyStrip ((pySplitlines text).getD 11 "") } ∧
    ((verify_file up vt subj stud).1 = true ↔
      (pyNorm u.course_name = pyNorm v.course_name ∧
       pyNorm u.course_name = pyNorm subj ∧
       pyNorm u.student_name = pyNorm v.student_name ∧
       pyNorm u.student_name = pyNorm stud ∧
       u.total_marks = v.total_marks ∧
       u.roll_no = v.roll_no)) := by
  constructor
  · unfold extract_student_info_from_pdf
    simp [h12]
  · unfold verify_file
    rw [hu, hv]
    dsimp only
    split_ifs <;> simp_all <;> cc

/-- Witness for C9 (amended) at `paddedText` against itself. -/
theorem extraction_trims_comparison_normalizes_witness :
    extract_student_info_from_pdf paddedText = some
      { course_name := pyStrip ((pySplitlines paddedText).getD 5 "")
        student_name := pyStrip ((pySplitlines paddedText).getD 6 "")
        total_marks := pyStrip ((pySplitlines paddedText).getD 9 "")
        roll_no := pyStrip ((pySplitlines paddedText).getD 11 "") } ∧
    ((verify_file paddedText paddedText "Algorithms" "Jane Doe").1 = true ↔
      (pyNorm sampleInfo.course_name = pyNorm sampleInfo.course_name ∧
       pyNorm sampleInfo.course_name = pyNorm "Algorithms" ∧
       pyNorm sampleInfo.student_name = pyNorm sampleInfo.student_name ∧
       pyNorm sampleInfo.student_name = pyNorm "Jane Doe" ∧
       sampleInfo.total_marks = sampleInfo.total_marks ∧
       sampleInfo.roll_no = sampleInfo.roll_no)) :=
  extraction_trims_comparison_normalizes paddedText paddedText paddedText
    "Algorithms" "Jane Doe" sampleInfo sampleInfo
    (by decide) (by decide) (by decide)

/-- C10: in a call that passes the guards and whose step-3 commit succeeds,
every path that drives the request to `rejected` (link missing, or comparator
failure) does not return normally: after persisting status `rejected` and
`verified=false`, it raises an HTTP 400 error whose detail equals the stored
remark; by contrast, the retrieval-failure path ending in status `error`
returns normally without raising. -/
theorem rejected_raises_error_returns (env : Env) (db : DBState) (req : Request)
    (hreq : db.request = some req)
    (hdue : past_due env.now req.due_date = false)
    (hcommit : env.commit1_fails = false) :
    (link_missing env.qr_link = true →
      (start_verification env db).2
        = Outcome.httpError 400 "Verification link / QR not found" ∧
      (start_verification env db).1.certificate.map Certificate.remark
        = some (some "Verification link / QR not found") ∧
      (start_verification env db).1.certificate.map Certificate.verified
        = some false ∧
      (start_verification env db).1.request.map Request.status
        = some RequestStatus.rejected) ∧
    (link_missing env.qr_link = false → env.download_success = true →
      (verify_file env.uploadedText env.downloadedText
        req.subject_name req.student_name).1 = false →
      (start_verification env db).2
        = Outcome.httpError 400 (verify_file env.uploadedText env.downloadedText
            req.subject_name req.student_name).2.1 ∧
      (start_verification env db).1.certificate.map Certificate.remark
        = some (some (verify_file env.uploadedText env.downloadedText
            req.subject_name req.student_name).2.1) ∧
      (start_verification env db).1.certificate.map Certificate.verified
        = some false ∧
      (start_verification env db).1.request.map Request.status
        = some RequestStatus.rejected) ∧
    (link_missing env.qr_link = false → env.download_success = false →
      (start_verification env db).2 = Outcome.ok ∧
      (start_verification env db).1.request.map Request.status
        = some RequestStatus.error) := by
  obtain ⟨oreq, ocert⟩ := db
  simp only [DBState.request] at hreq
  subst hreq
  refine ⟨?_, ?_, ?_⟩
  · intro hl
    simp [start_verification, hdue, hcommit, hl,
          update_status_to_rejected, step3State]
  · intro hl hd hv
    simp [start_verification, hdue, hcommit, hl, hd, hv,
          update_status_to_rejected, step3State]
  · intro hl hd
    simp [start_verification, hdue, hcommit, hl, hd,
          update_status_to_error, step3State]

/-- Witness for C10: the link-missing sample run raises HTTP 400 with the
stored remark, and the failed-download sample run returns normally with
status `error`. -/
theorem rejected_raises_error_returns_witness :
    ((start_verification envNoLink sampleDB).2
      = Outcome.httpError 400 "Verification link / QR not found" ∧
     (start_verification envNoLink sampleDB).1.certificate.map Certificate.remark
      = some (some "Verification link / QR not found")) ∧
    ((start_verification envDownloadFail sampleDB).2 = Outcome.ok ∧
     (start_verification envDownloadFail sampleDB).1.request.map Request.status
      = some RequestStatus.error) := by
  have h1 := (rejected_raises_error_returns envNoLink sampleDB sampleReq
    (by decide) (by decide) (by decide)).1 (by decide)
  have h2 := (rejected_raises_error_returns envDownloadFail sampleDB sampleReq
    (by decide) (by decide) (by decide)).2.2 (by decide) (by decide)
  exact ⟨⟨h1.1, h1.2.1⟩, h2⟩

end NptelApi
